import Mathlib

/-!
Shallow embedding of the AgentVision repository (src/agent.py and src/zepto.py):
a browser-driving agent whose tool primitives wrap helium/selenium calls in
try/except blocks and return message strings, plus a screenshot/URL observation
callback and the agent step budget.

Each helium/selenium call that the Python code performs is modelled as a field
of an environment structure holding the result of that call: either a normal
return value or a raised exception (the Except error case).  The primitive
definitions below reproduce the control flow of the Python tool bodies over
those environments.
-/

set_option autoImplicit false

namespace AgentVision

/-- Kind of a raised Python exception, following the error taxonomy relevant to
the code: selenium timeouts, element lookup failures, driver-level (session
fatal) failures, attribute errors on None, and everything else.  The Python
code catches bare Exception, so the kind is never inspected by the primitives
themselves; it lets theorems quantify over particular failure classes. -/
inductive ExnKind where
  | timeout
  | elementNotFound
  | driverError
  | attributeError
  | other
  deriving DecidableEq, Repr

/-- A raised Python exception: its kind and the string str(e) produces. -/
structure Exn where
  kind : ExnKind
  msg : String
  deriving DecidableEq, Repr

/-- The structured outcome of one primitive invocation, as the spec data model
names it: success flag plus human-readable message.  The Python tools return
the message string; success corresponds to the try body returning normally
rather than the except branch firing. -/
structure ActionOutcome where
  success : Bool
  message : String
  deriving DecidableEq, Repr

/-! ## navigate_to_zepto (src/agent.py lines 67-80, identical in src/zepto.py lines 62-75) -/

/-- The fixed URL the navigate primitive always loads: helium.go_to argument. -/
def zepto_url : String := "https://www.zeptonow.com/"

/-- timeout_secs argument of the helium.wait_until landmark wait in
navigate_to_zepto. -/
def navigate_timeout_secs : Nat := 10

/-- Environment of navigate_to_zepto: the outcome of helium.go_to for each
requested url, and the outcome of the helium.wait_until for the
Text("Search for") landmark (raises TimeoutException when the landmark never
appears within the timeout). -/
structure NavPage where
  go_to : String → Except Exn Unit
  wait_search_for : Except Exn Unit

/-- The try body of navigate_to_zepto: go_to the fixed url, then wait for the
landmark. -/
def navigate_to_zepto_body (p : NavPage) : Except Exn Unit := do
  p.go_to zepto_url
  p.wait_search_for

/-- navigate_to_zepto: try body, except Exception as e returning the error
string. -/
def navigate_to_zepto (p : NavPage) : ActionOutcome :=
  match navigate_to_zepto_body p with
  | .ok _ => ⟨true, "Successfully navigated to Zepto."⟩
  | .error e => ⟨false, "Error navigating to Zepto: " ++ e.msg⟩

/-! ## handle_location_popup (src/agent.py lines 82-112) -/

/-- Argument of the sleep call at the top of handle_location_popup, in seconds
(the source calls sleep with 2.0). -/
def handle_location_popup_sleep_secs : Nat := 2

/-- The default PIN the third branch writes (helium.write argument). -/
def default_pin : String := "400001"

/-- Environment of handle_location_popup: for each helium call of the body, its
result.  The exists checks return a Bool or raise; the clicks and the write
return unit or raise. -/
structure LocPage where
  detect_exists : Except Exn Bool
  click_detect : Except Exn Unit
  allow_exists : Except Exn Bool
  click_allow : Except Exn Unit
  pin_text_exists : Except Exn Bool
  write_pin : Except Exn Unit
  click_confirm : Except Exn Unit

/-- The try body of handle_location_popup: after the 2 second sleep, check the
three known controls in order and execute the first branch whose control
exists; otherwise report no popup. -/
def handle_location_popup_body (p : LocPage) : Except Exn String := do
  let d ← p.detect_exists
  if d then do
    p.click_detect
    pure "Clicked \x27Detect my location\x27."
  else do
    let a ← p.allow_exists
    if a then do
      p.click_allow
      pure "Clicked \x27Allow\x27 on location popup."
    else do
      let t ← p.pin_text_exists
      if t then do
        p.write_pin
        p.click_confirm
        pure "Entered PIN and confirmed location."
      else
        pure "No location popup detected."

/-- handle_location_popup: try body, except Exception as e returning the error
string. -/
def handle_location_popup (p : LocPage) : ActionOutcome :=
  match handle_location_popup_body p with
  | .ok s => ⟨true, s⟩
  | .error e => ⟨false, "Error handling location popup: " ++ e.msg⟩

/-! ## search_product (src/agent.py lines 114-132) -/

/-- timeout_secs argument of the helium.wait_until in search_product. -/
def search_timeout_secs : Nat := 10

/-- Environment of search_product: results of clicking the search link, typing
(helium.write of the product name), pressing ENTER, and the wait_until for the
Text(product_name) landmark.  The typing and the landmark wait depend on the
product name. -/
structure SearchPage where
  click_search_link : Except Exn Unit
  write_text : String → Except Exn Unit
  press_enter : Except Exn Unit
  wait_for_text : String → Except Exn Unit

/-- The try body of search_product. -/
def search_product_body (p : SearchPage) (product_name : String) : Except Exn Unit := do
  p.click_search_link
  p.write_text product_name
  p.press_enter
  p.wait_for_text product_name

/-- search_product: try body, except Exception as e returning the error string
that interpolates the product name. -/
def search_product (p : SearchPage) (product_name : String) : ActionOutcome :=
  match search_product_body p product_name with
  | .ok _ => ⟨true, "Successfully searched for \x27" ++ product_name ++ "\x27."⟩
  | .error e => ⟨false, "Error searching for \x27" ++ product_name ++ "\x27: " ++ e.msg⟩

/-! ## select_first_product (src/agent.py lines 134-147) -/

/-- Environment of select_first_product: the wait_until for the
S(".cursor-pointer") element and the click on it. -/
structure SelectPage where
  wait_cursor_pointer : Except Exn Unit
  click_cursor_pointer : Except Exn Unit

/-- The try body of select_first_product. -/
def select_first_product_body (p : SelectPage) : Except Exn Unit := do
  p.wait_cursor_pointer
  p.click_cursor_pointer

/-- select_first_product: try body, except Exception as e returning the error
string. -/
def select_first_product (p : SelectPage) : ActionOutcome :=
  match select_first_product_body p with
  | .ok _ => ⟨true, "Successfully selected the first product."⟩
  | .error e => ⟨false, "Error selecting the first product: " ++ e.msg⟩

/-! ## add_to_cart (src/agent.py lines 149-162) -/

/-- Environment of add_to_cart: the wait_until for the Button("Add to Cart")
and the click on it. -/
structure CartPage where
  wait_add_button : Except Exn Unit
  click_add_button : Except Exn Unit

/-- The try body of add_to_cart. -/
def add_to_cart_body (p : CartPage) : Except Exn Unit := do
  p.wait_add_button
  p.click_add_button

/-- add_to_cart: try body, except Exception as e returning the error string. -/
def add_to_cart (p : CartPage) : ActionOutcome :=
  match add_to_cart_body p with
  | .ok _ => ⟨true, "Successfully added the product to the cart."⟩
  | .error e => ⟨false, "Error adding product to the cart: " ++ e.msg⟩

/-! ## close_popups (src/agent.py lines 164-189) -/

/-- timeout argument of the WebDriverWait in close_popups, in seconds (the
source passes 1.0). -/
def close_popups_wait_secs : Nat := 1

/-- The fixed list of overlay/modal CSS selectors tried by close_popups, in
source order. -/
def modal_selectors : List String :=
  ["button[class*=\x27close\x27]",
   "[class*=\x27modal\x27]",
   ".modal-close",
   ".close-modal"]

/-- An element found by a selector: the result of its is_displayed() call and
of the script-level click the code dispatches on displayed elements. -/
structure Elem where
  is_displayed : Except Exn Bool
  click_via_script : Except Exn Unit

/-- Environment of close_popups: the elements currently matching each selector
(assumed stable over the 1 second wait window), and the string a raised
selenium TimeoutException stringifies to. -/
structure PopupPage where
  find_all : String → List Elem
  timeout_msg : String

/-- wait.until(EC.presence_of_all_elements_located(selector)): the expected
condition returns the list of matches, which until treats as falsy when empty,
so an empty match list makes the wait poll until it raises TimeoutException;
a non-empty list is returned at once. -/
def wait_until_all (p : PopupPage) (selector : String) : Except Exn (List Elem) :=
  match p.find_all selector with
  | [] => .error ⟨.timeout, p.timeout_msg⟩
  | e :: es => .ok (e :: es)

/-- Inner for loop of close_popups: script-click each displayed element. -/
def close_elements : List Elem → Except Exn Unit
  | [] => pure ()
  | e :: es => do
    let d ← e.is_displayed
    if d then do
      e.click_via_script
      close_elements es
    else
      close_elements es

/-- Outer for loop of close_popups over the selector list. -/
def close_selectors (p : PopupPage) : List String → Except Exn Unit
  | [] => pure ()
  | s :: ss => do
    let es ← wait_until_all p s
    close_elements es
    close_selectors p ss

/-- The try body of close_popups. -/
def close_popups_body (p : PopupPage) : Except Exn Unit :=
  close_selectors p modal_selectors

/-- close_popups: try body, except Exception as e returning the error string. -/
def close_popups (p : PopupPage) : ActionOutcome :=
  match close_popups_body p with
  | .ok _ => ⟨true, "Popups closed."⟩
  | .error e => ⟨false, "Error closing popups: " ++ e.msg⟩

/-! ## scrape_categories (src/zepto.py lines 77-108) -/

/-- Timeout of the WebDriverWait in scrape_categories, in seconds. -/
def scrape_wait_secs : Nat := 3

/-- Environment of scrape_categories: the outcome of the 3 second presence
wait for the category-grid img[alt] selector, and of the find_elements call —
for each matched img element, the result of its get_attribute("alt") call
(none models a Python None return). -/
structure CategoryPage where
  wait_presence : Except Exn Unit
  find_elements : Except Exn (List (Except Exn (Option String)))

/-- The alt-collecting for loop of scrape_categories: read each alt attribute
in page order; a truthy (non-None, non-empty) alt is stripped and appended. -/
def collect_alts : List (Except Exn (Option String)) → Except Exn (List String)
  | [] => .ok []
  | g :: gs => do
    let alt ← g
    let rest ← collect_alts gs
    match alt with
    | some s => if s = "" then pure rest else pure (s.trim :: rest)
    | none => pure rest

/-- The try body of scrape_categories. -/
def scrape_categories_body (p : CategoryPage) : Except Exn String := do
  p.wait_presence
  let imgs ← p.find_elements
  if imgs.isEmpty then
    pure "No category images found. Possibly incorrect selector."
  else do
    let names ← collect_alts imgs
    if names.isEmpty then
      pure "No alt text found in category images."
    else
      pure ("Categories found: " ++ String.intercalate ", " names)

/-- scrape_categories: try body, except Exception as e returning the error
string. -/
def scrape_categories (p : CategoryPage) : ActionOutcome :=
  match scrape_categories_body p with
  | .ok s => ⟨true, s⟩
  | .error e => ⟨false, "Error scraping categories: " ++ e.msg⟩

/-- A static page for scrape_categories, described by the alt attributes of
the imgs matching the category selector, in page order.  When no img matches,
the presence wait polls its 3 seconds and raises TimeoutException (whose
string is tm); otherwise it succeeds and find_elements returns the matches,
each alt read succeeding. -/
def static_category_page (tm : String) (alts : List (Option String)) : CategoryPage where
  wait_presence := if alts.isEmpty then .error ⟨.timeout, tm⟩ else .ok ()
  find_elements := .ok (alts.map Except.ok)

/-- Pure description of the category names the loop collects from a list of
alt attributes: the stripped truthy alts in page order. -/
def py_alt_names : List (Option String) → List String
  | [] => []
  | some s :: gs => if s = "" then py_alt_names gs else s.trim :: py_alt_names gs
  | none :: gs => py_alt_names gs

/-! ## save_screenshot (src/agent.py lines 30-51, identical in src/zepto.py lines 29-46) -/

/-- Settle delay at the top of save_screenshot, in seconds. -/
def observation_settle_secs : Nat := 1

/-- Abstract screenshot image value: the decoded PNG the callback stores (the
PIL decoding itself is opaque to the claims). -/
structure Img where
  data : List Nat
  deriving DecidableEq, Repr

/-- The live driver as save_screenshot sees it: the result of
get_screenshot_as_png (the PNG already decoded/copied to an Img) and the
current_url property. -/
structure Driver where
  get_screenshot_as_png : Except Exn Img
  current_url : String

/-- The mutable ActionStep record fields the callback touches.  observations
is a Python attribute that is None or a string; observations_images likewise
None or a list of images. -/
structure StepLog where
  observations : Option String
  observations_images : Option (List Img)
  deriving DecidableEq, Repr

/-- The f-string url_info the callback builds from the current URL. -/
def url_line (u : String) : String := "Current URL: " ++ u

/-- The str(e) text of the AttributeError Python raises when current_url is
read off a None driver. -/
def none_driver_msg : String :=
  "\x27NoneType\x27 object has no attribute \x27current_url\x27"

/-- save_screenshot: helium.get_driver() gives the driver (none when no live
connection).  The screenshot block is guarded by if driver, but the url_info
line dereferences driver.current_url unconditionally, so a None driver raises
AttributeError there.  With a driver, the screenshot is taken (any raise
propagates — the callback has no try/except), the images list is replaced,
and the URL line is appended to a truthy observations string after a newline,
or becomes the whole observations when it was None or empty (Python
truthiness of the if step_log.observations test). -/
def save_screenshot (driver : Option Driver) (log : StepLog) : Except Exn StepLog :=
  match driver with
  | none => .error ⟨.attributeError, none_driver_msg⟩
  | some d => do
    let png ← d.get_screenshot_as_png
    let log1 : StepLog := { log with observations_images := some [png] }
    let url_info := url_line d.current_url
    .ok { log1 with observations :=
            match log1.observations with
            | some s => if s = "" then some url_info else some (s ++ "\n" ++ url_info)
            | none => some url_info }

/-! ## The agent Control Loop and step budget

The loop itself lives in the external smolagents library (CodeAgent.run), not
under src/; src only configures it.  Modelled from the spec: the Step Harness
and Control Loop of sections 4.4 and 4.5 — each step asks the Decision
Function for either a primitive invocation or a terminal answer, executes the
primitive, records the step, and the loop stops at a terminal answer or after
maxSteps steps, the budget exhaustion returning the most recent outcome
message as a best-effort result. -/

/-- Modelled from the spec: one recorded step of the run history (spec data
model Step: primitive name, arguments, outcome message). -/
structure SpecStep where
  primitiveName : String
  args : List String
  outcomeMessage : String
  deriving DecidableEq, Repr

/-- Modelled from the spec: the Decision Function output — either the next
primitive invocation or the terminal answer. -/
inductive Decision where
  | act (name : String) (args : List String)
  | done (answer : String)
  deriving DecidableEq, Repr

/-- Modelled from the spec: the Termination Signal of a run — a terminal
answer, or budget exhaustion carrying the most recent outcome message. -/
inductive RunResult where
  | final (answer : String)
  | aborted (bestEffort : Option String)
  deriving DecidableEq, Repr

/-- The most recent outcome message of a history. -/
def last_outcome_message (hist : List SpecStep) : Option String :=
  hist.getLast?.map SpecStep.outcomeMessage

/-- Modelled from the spec: the Control Loop with fuel counting the remaining
step budget.  Exhausted budget aborts with the best-effort message; otherwise
the Decision Function either terminates the run or names the next primitive,
which is executed and appended to the history. -/
def control_loop (decide : List SpecStep → Decision)
    (exec : String → List String → String) :
    Nat → List SpecStep → List SpecStep × RunResult
  | 0, hist => (hist, .aborted (last_outcome_message hist))
  | fuel + 1, hist =>
    match decide hist with
    | .done ans => (hist, .final ans)
    | .act name args =>
      control_loop decide exec fuel (hist ++ [⟨name, args, exec name args⟩])

/-- Modelled from the spec: a full agent run starts from the empty history
with the configured maximum step count as budget. -/
def run_agent (decide : List SpecStep → Decision)
    (exec : String → List String → String) (maxSteps : Nat) :
    List SpecStep × RunResult :=
  control_loop decide exec maxSteps []

/-- max_steps passed to CodeAgent in src/agent.py (the shopping flow). -/
def agent_max_steps : Nat := 20

/-- max_steps passed to CodeAgent in src/zepto.py (the scraping flow). -/
def zepto_agent_max_steps : Nat := 10

/-! ## Helper lemmas -/

/-- Reduction of an Except bind on a normal result. -/
@[simp] theorem exn_bind_ok {e a b : Type} (x : a) (f : a → Except e b) :
    (Except.ok x >>= f) = f x := rfl

/-- Reduction of an Except bind on a raised error. -/
@[simp] theorem exn_bind_error {e a b : Type} (err : e) (f : a → Except e b) :
    ((Except.error err : Except e a) >>= f) = Except.error err := rfl

/-- Pure of the Except monad is the ok constructor. -/
@[simp] theorem exn_pure_eq_ok {e a : Type} (x : a) :
    (pure x : Except e a) = Except.ok x := rfl

/-- Appending to the empty string on the left is the identity. -/
@[simp] theorem string_empty_append (s : String) : "" ++ s = s := rfl

/-- A string with a non-empty left part stays non-empty after appending. -/
theorem append_left_ne_empty (s t : String) (h : s.length ≠ 0) : s ++ t ≠ "" := by
  intro hc
  have hl := congrArg String.length hc
  simp [String.length_append] at hl
  omega

/-- Collecting alt names over a list of successful attribute reads yields the
pure description of the stripped truthy alts, in order. -/
theorem collect_alts_map_ok (alts : List (Option String)) :
    collect_alts (alts.map Except.ok) = .ok (py_alt_names alts) := by
  induction alts with
  | nil => rfl
  | cons a gs ih =>
    cases a with
    | none => simp [collect_alts, py_alt_names, ih]
    | some s =>
      by_cases hs : s = "" <;>
        simp [collect_alts, py_alt_names, ih, hs]

/-! ## Claim theorems -/

/-- C1: every primitive of the action library converts every internal failure
raised during its execution — timeout, element-not-found, driver-level
exception or any other — into a failed ActionOutcome whose message is
non-empty, and never lets the raised error escape its boundary: each
primitive is a total function into ActionOutcome, and whenever its try body
raises e, the outcome is the failed one carrying the descriptive error
string. -/
theorem primitives_convert_all_failures :
    (∀ (p : NavPage) (e : Exn), navigate_to_zepto_body p = .error e →
        navigate_to_zepto p = ⟨false, "Error navigating to Zepto: " ++ e.msg⟩ ∧
        (navigate_to_zepto p).message ≠ "") ∧
    (∀ (p : LocPage) (e : Exn), handle_location_popup_body p = .error e →
        handle_location_popup p = ⟨false, "Error handling location popup: " ++ e.msg⟩ ∧
        (handle_location_popup p).message ≠ "") ∧
    (∀ (p : SearchPage) (n : String) (e : Exn), search_product_body p n = .error e →
        search_product p n = ⟨false, "Error searching for \x27" ++ n ++ "\x27: " ++ e.msg⟩ ∧
        (search_product p n).message ≠ "") ∧
    (∀ (p : SelectPage) (e : Exn), select_first_product_body p = .error e →
        select_first_product p = ⟨false, "Error selecting the first product: " ++ e.msg⟩ ∧
        (select_first_product p).message ≠ "") ∧
    (∀ (p : CartPage) (e : Exn), add_to_cart_body p = .error e →
        add_to_cart p = ⟨false, "Error adding product to the cart: " ++ e.msg⟩ ∧
        (add_to_cart p).message ≠ "") ∧
    (∀ (p : PopupPage) (e : Exn), close_popups_body p = .error e →
        close_popups p = ⟨false, "Error closing popups: " ++ e.msg⟩ ∧
        (close_popups p).message ≠ "") ∧
    (∀ (p : CategoryPage) (e : Exn), scrape_categories_body p = .error e →
        scrape_categories p = ⟨false, "Error scraping categories: " ++ e.msg⟩ ∧
        (scrape_categories p).message ≠ "") := by
  refine ⟨?_, ?_, ?_, ?_, ?_, ?_, ?_⟩
  · intro p e h
    have hv : navigate_to_zepto p = ⟨false, "Error navigating to Zepto: " ++ e.msg⟩ := by
      simp [navigate_to_zepto, h]
    exact ⟨hv, by rw [hv]; exact append_left_ne_empty _ _ (by decide)⟩
  · intro p e h
    have hv : handle_location_popup p =
        ⟨false, "Error handling location popup: " ++ e.msg⟩ := by
      simp [handle_location_popup, h]
    exact ⟨hv, by rw [hv]; exact append_left_ne_empty _ _ (by decide)⟩
  · intro p n e h
    have hv : search_product p n =
        ⟨false, "Error searching for \x27" ++ n ++ "\x27: " ++ e.msg⟩ := by
      simp [search_product, h]
    refine ⟨hv, ?_⟩
    rw [hv, String.append_assoc, String.append_assoc]
    exact append_left_ne_empty _ _ (by decide)
  · intro p e h
    have hv : select_first_product p =
        ⟨false, "Error selecting the first product: " ++ e.msg⟩ := by
      simp [select_first_product, h]
    exact ⟨hv, by rw [hv]; exact append_left_ne_empty _ _ (by decide)⟩
  · intro p e h
    have hv : add_to_cart p = ⟨false, "Error adding product to the cart: " ++ e.msg⟩ := by
      simp [add_to_cart, h]
    exact ⟨hv, by rw [hv]; exact append_left_ne_empty _ _ (by decide)⟩
  · intro p e h
    have hv : close_popups p = ⟨false, "Error closing popups: " ++ e.msg⟩ := by
      simp [close_popups, h]
    exact ⟨hv, by rw [hv]; exact append_left_ne_empty _ _ (by decide)⟩
  · intro p e h
    have hv : scrape_categories p = ⟨false, "Error scraping categories: " ++ e.msg⟩ := by
      simp [scrape_categories, h]
    exact ⟨hv, by rw [hv]; exact append_left_ne_empty _ _ (by decide)⟩

/-- A navigate environment whose landmark wait times out. -/
def nav_page_timeout : NavPage where
  go_to := fun _ => .ok ()
  wait_search_for := .error ⟨.timeout, "Message: "⟩

/-- Witness for C1: on a concrete page whose landmark wait raises a timeout,
navigate_to_zepto returns the failed outcome with its non-empty message. -/
theorem primitives_convert_all_failures_witness :
    navigate_to_zepto nav_page_timeout =
      ⟨false, "Error navigating to Zepto: " ++ "Message: "⟩ ∧
    (navigate_to_zepto nav_page_timeout).message ≠ "" :=
  primitives_convert_all_failures.1 nav_page_timeout ⟨.timeout, "Message: "⟩ rfl

/-- A navigate environment whose go_to raises a driver-level session-fatal
error. -/
def nav_page_driver_crash : NavPage where
  go_to := fun _ => .error ⟨.driverError, "invalid session id"⟩
  wait_search_for := .ok ()

/-- C5 counterexample: a driver-level error raised inside navigate_to_zepto
does not propagate out of the primitive; it is converted into a failed
ActionOutcome message by the blanket except handler, contradicting the claim
that it escapes uncaught. -/
theorem driver_error_not_propagated_counterexample :
    navigate_to_zepto nav_page_driver_crash =
      ⟨false, "Error navigating to Zepto: invalid session id"⟩ ∧
    (navigate_to_zepto nav_page_driver_crash).success = false :=
  ⟨rfl, rfl⟩

/-- C5 amended: a driver-level/session-fatal error raised inside any primitive
is caught by the same blanket except Exception handler as every other failure
and converted into a failed ActionOutcome message; no exception class
propagates out of a primitive. -/
theorem driver_errors_converted_to_outcomes :
    (∀ (p : NavPage) (e : Exn), e.kind = .driverError →
        navigate_to_zepto_body p = .error e →
        navigate_to_zepto p = ⟨false, "Error navigating to Zepto: " ++ e.msg⟩) ∧
    (∀ (p : LocPage) (e : Exn), e.kind = .driverError →
        handle_location_popup_body p = .error e →
        handle_location_popup p = ⟨false, "Error handling location popup: " ++ e.msg⟩) ∧
    (∀ (p : SearchPage) (n : String) (e : Exn), e.kind = .driverError →
        search_product_body p n = .error e →
        search_product p n = ⟨false, "Error searching for \x27" ++ n ++ "\x27: " ++ e.msg⟩) ∧
    (∀ (p : SelectPage) (e : Exn), e.kind = .driverError →
        select_first_product_body p = .error e →
        select_first_product p = ⟨false, "Error selecting the first product: " ++ e.msg⟩) ∧
    (∀ (p : CartPage) (e : Exn), e.kind = .driverError →
        add_to_cart_body p = .error e →
        add_to_cart p = ⟨false, "Error adding product to the cart: " ++ e.msg⟩) ∧
    (∀ (p : PopupPage) (e : Exn), e.kind = .driverError →
        close_popups_body p = .error e →
        close_popups p = ⟨false, "Error closing popups: " ++ e.msg⟩) ∧
    (∀ (p : CategoryPage) (e : Exn), e.kind = .driverError →
        scrape_categories_body p = .error e →
        scrape_categories p = ⟨false, "Error scraping categories: " ++ e.msg⟩) := by
  refine ⟨?_, ?_, ?_, ?_, ?_, ?_, ?_⟩
  · intro p e _ h
    simp [navigate_to_zepto, h]
  · intro p e _ h
    simp [handle_location_popup, h]
  · intro p n e _ h
    simp [search_product, h]
  · intro p e _ h
    simp [select_first_product, h]
  · intro p e _ h
    simp [add_to_cart, h]
  · intro p e _ h
    simp [close_popups, h]
  · intro p e _ h
    simp [scrape_categories, h]

/-- Witness for the amended C5: the concrete session-fatal navigate
environment yields the converted failed outcome. -/
theorem driver_errors_converted_to_outcomes_witness :
    navigate_to_zepto nav_page_driver_crash =
      ⟨false, "Error navigating to Zepto: " ++ "invalid session id"⟩ :=
  driver_errors_converted_to_outcomes.1 nav_page_driver_crash
    ⟨.driverError, "invalid session id"⟩ rfl rfl

/-- A page on which no element matches any overlay selector. -/
def popup_page_empty : PopupPage where
  find_all := fun _ => []
  timeout_msg := "Message: "

/-- C2 counterexample: on a page with zero elements matching the overlay
selectors, close_popups does not return success — the one second wait for the
first selector polls until it raises TimeoutException, which the handler
converts into a failed outcome. -/
theorem close_popups_absence_counterexample :
    close_popups popup_page_empty = ⟨false, "Error closing popups: Message: "⟩ ∧
    (close_popups popup_page_empty).success = false :=
  ⟨rfl, rfl⟩

/-- C2 amended: on a page where zero elements match the first overlay selector
(in particular a page with no overlays at all), the wait for that selector
times out and close_popups reports failure with the stringified
TimeoutException; absence of overlays is reported as a failure, not as an
empty success. -/
theorem close_popups_no_match_times_out :
    ∀ (p : PopupPage), p.find_all "button[class*=\x27close\x27]" = [] →
      close_popups p = ⟨false, "Error closing popups: " ++ p.timeout_msg⟩ := by
  intro p h
  simp [close_popups, close_popups_body, modal_selectors, close_selectors,
    wait_until_all, h]

/-- Witness for the amended C2: the concrete overlay-free page yields the
timeout failure outcome. -/
theorem close_popups_no_match_times_out_witness :
    close_popups popup_page_empty =
      ⟨false, "Error closing popups: " ++ popup_page_empty.timeout_msg⟩ :=
  close_popups_no_match_times_out popup_page_empty rfl

/-- C6: handle_location_popup sleeps 2 seconds, then tries its branches in the
fixed order detect-location, allow, PIN entry, executing only the first branch
whose control exists: when the detect control exists the result depends only
on the detect click (the later controls are never consulted), and likewise at
the allow level; when none of the three controls exists the outcome is success
with message exactly "No location popup detected.". -/
theorem handle_location_popup_contract :
    handle_location_popup_sleep_secs = 2 ∧
    (∀ (p : LocPage), p.detect_exists = .ok false → p.allow_exists = .ok false →
        p.pin_text_exists = .ok false →
        handle_location_popup p = ⟨true, "No location popup detected."⟩) ∧
    (∀ (p q : LocPage), p.detect_exists = .ok true → q.detect_exists = .ok true →
        p.click_detect = q.click_detect →
        handle_location_popup p = handle_location_popup q) ∧
    (∀ (p : LocPage), p.detect_exists = .ok true → p.click_detect = .ok () →
        handle_location_popup p = ⟨true, "Clicked \x27Detect my location\x27."⟩) ∧
    (∀ (p q : LocPage), p.detect_exists = .ok false → q.detect_exists = .ok false →
        p.allow_exists = .ok true → q.allow_exists = .ok true →
        p.click_allow = q.click_allow →
        handle_location_popup p = handle_location_popup q) ∧
    (∀ (p : LocPage), p.detect_exists = .ok false → p.allow_exists = .ok true →
        p.click_allow = .ok () →
        handle_location_popup p = ⟨true, "Clicked \x27Allow\x27 on location popup."⟩) ∧
    (∀ (p : LocPage), p.detect_exists = .ok false → p.allow_exists = .ok false →
        p.pin_text_exists = .ok true → p.write_pin = .ok () → p.click_confirm = .ok () →
        handle_location_popup p = ⟨true, "Entered PIN and confirmed location."⟩) := by
  refine ⟨rfl, ?_, ?_, ?_, ?_, ?_, ?_⟩
  · intro p h1 h2 h3
    simp [handle_location_popup, handle_location_popup_body, h1, h2, h3]
  · intro p q hp hq hpq
    simp [handle_location_popup, handle_location_popup_body, hp, hq, hpq]
  · intro p h1 h2
    simp [handle_location_popup, handle_location_popup_body, h1, h2]
  · intro p q hp hq hpa hqa hpq
    simp [handle_location_popup, handle_location_popup_body, hp, hq, hpa, hqa, hpq]
  · intro p h1 h2 h3
    simp [handle_location_popup, handle_location_popup_body, h1, h2, h3]
  · intro p h1 h2 h3 h4 h5
    simp [handle_location_popup, handle_location_popup_body, h1, h2, h3, h4, h5]

/-- A page on which none of the three location controls exists. -/
def loc_page_no_popup : LocPage where
  detect_exists := .ok false
  click_detect := .ok ()
  allow_exists := .ok false
  click_allow := .ok ()
  pin_text_exists := .ok false
  write_pin := .ok ()
  click_confirm := .ok ()

/-- Witness for C6: on the concrete page without any location control, the
outcome is success with the exact no-popup message. -/
theorem handle_location_popup_contract_witness :
    handle_location_popup loc_page_no_popup = ⟨true, "No location popup detected."⟩ :=
  handle_location_popup_contract.2.1 loc_page_no_popup rfl rfl rfl

/-- C7: search_product waits up to 10 seconds for the product name to appear,
and whenever its body fails internally the outcome is failed and the message
contains the text Error searching for quoted-product-name. -/
theorem search_product_error_message :
    search_timeout_secs = 10 ∧
    ∀ (p : SearchPage) (n : String) (e : Exn), search_product_body p n = .error e →
      (search_product p n).success = false ∧
      ∃ pre post, (search_product p n).message =
        pre ++ ("Error searching for \x27" ++ n ++ "\x27") ++ post := by
  refine ⟨rfl, ?_⟩
  intro p n e h
  have hv : search_product p n =
      ⟨false, "Error searching for \x27" ++ n ++ "\x27: " ++ e.msg⟩ := by
    simp [search_product, h]
  refine ⟨by rw [hv], "", ": " ++ e.msg, ?_⟩
  rw [hv]
  have hsplit : ("\x27: " ++ e.msg : String) = "\x27" ++ (": " ++ e.msg) := rfl
  simp only [String.append_assoc, hsplit, string_empty_append]

/-- A search environment whose landmark wait for the product name times
out. -/
def search_page_timeout : SearchPage where
  click_search_link := .ok ()
  write_text := fun _ => .ok ()
  press_enter := .ok ()
  wait_for_text := fun _ => .error ⟨.timeout, "Message: "⟩

/-- Witness for C7: searching for milk on a concrete page whose results
landmark never renders yields a failed outcome whose message contains the
text Error searching for quoted milk. -/
theorem search_product_error_message_witness :
    (search_product search_page_timeout "milk").success = false ∧
    ∃ pre post, (search_product search_page_timeout "milk").message =
      pre ++ ("Error searching for \x27" ++ "milk" ++ "\x27") ++ post :=
  search_product_error_message.2 search_page_timeout "milk"
    ⟨.timeout, "Message: "⟩ rfl

/-- A session on which loading any url succeeds except the fixed Zepto url,
whose load raises a navigation error; the landmark wait would succeed. -/
def nav_page_fixed_url_probe : NavPage where
  go_to := fun u =>
    if u = "https://www.zeptonow.com/" then
      .error ⟨.other, "net::ERR_CONNECTION_REFUSED"⟩
    else
      .ok ()
  wait_search_for := .ok ()

/-- C9 counterexample: the navigate primitive takes no url argument and
ignores any caller-chosen url — on a session where every url except the fixed
Zepto homepage loads fine, the primitive still fails, because the url it loads
is the hard-coded one. -/
theorem navigate_fixed_url_counterexample :
    nav_page_fixed_url_probe.go_to "https://www.google.com/" = .ok () ∧
    navigate_to_zepto nav_page_fixed_url_probe =
      ⟨false, "Error navigating to Zepto: net::ERR_CONNECTION_REFUSED"⟩ :=
  ⟨rfl, rfl⟩

/-- C9 amended: navigate_to_zepto takes no url argument; it always loads the
fixed url of the Zepto homepage and then waits up to 10 seconds for the
Search-for text landmark; it returns the success outcome exactly when both the
navigation and the landmark wait succeed, and a failure outcome carrying the
error string on timeout or navigation error. -/
theorem navigate_to_zepto_contract :
    zepto_url = "https://www.zeptonow.com/" ∧
    navigate_timeout_secs = 10 ∧
    (∀ (p : NavPage),
        navigate_to_zepto p = ⟨true, "Successfully navigated to Zepto."⟩ ↔
        (p.go_to zepto_url = .ok () ∧ p.wait_search_for = .ok ())) ∧
    (∀ (p : NavPage) (e : Exn), navigate_to_zepto_body p = .error e →
        navigate_to_zepto p = ⟨false, "Error navigating to Zepto: " ++ e.msg⟩) := by
  refine ⟨rfl, rfl, ?_, ?_⟩
  · intro p
    constructor
    · intro h
      cases hg : p.go_to zepto_url with
      | error e =>
        simp [navigate_to_zepto, navigate_to_zepto_body, hg] at h
      | ok u =>
        cases u
        cases hw : p.wait_search_for with
        | error e =>
          simp [navigate_to_zepto, navigate_to_zepto_body, hg, hw] at h
        | ok v =>
          cases v
          exact ⟨rfl, rfl⟩
    · rintro ⟨h1, h2⟩
      simp [navigate_to_zepto, navigate_to_zepto_body, h1, h2]
  · intro p e h
    simp [navigate_to_zepto, h]

/-- A session on which navigation and the landmark wait both succeed. -/
def nav_page_ok : NavPage where
  go_to := fun _ => .ok ()
  wait_search_for := .ok ()

/-- Witness for the amended C9: on a concrete session where both the load and
the landmark wait succeed, navigate_to_zepto returns the success outcome. -/
theorem navigate_to_zepto_contract_witness :
    navigate_to_zepto nav_page_ok = ⟨true, "Successfully navigated to Zepto."⟩ :=
  (navigate_to_zepto_contract.2.2.1 nav_page_ok).mpr ⟨rfl, rfl⟩

/-- C3: save_screenshot with no live driver.  The screenshot block is guarded
by if driver, but the url line then dereferences the None driver, raising an
AttributeError, so the step callback fails instead of completing with the url
attached.  This evaluates the code at the failing input. -/
theorem save_screenshot_none_driver_raises :
    save_screenshot none ⟨none, none⟩ = .error ⟨.attributeError, none_driver_msg⟩ :=
  rfl

/-- C8: save_screenshot appends the current-URL line to an existing non-empty
textual observation after a newline — the prior text stays as a prefix, never
overwritten — and sets the line as the whole observation exactly when no
prior text exists (the observations attribute is None or the empty string). -/
theorem save_screenshot_appends_url :
    (∀ (d : Driver) (log : StepLog) (png : Img) (s : String),
        d.get_screenshot_as_png = .ok png → log.observations = some s → s ≠ "" →
        save_screenshot (some d) log =
          .ok ⟨some (s ++ "\n" ++ url_line d.current_url), some [png]⟩ ∧
        ∃ rest, s ++ "\n" ++ url_line d.current_url = s ++ rest) ∧
    (∀ (d : Driver) (log : StepLog) (png : Img),
        d.get_screenshot_as_png = .ok png →
        (log.observations = none ∨ log.observations = some "") →
        save_screenshot (some d) log =
          .ok ⟨some (url_line d.current_url), some [png]⟩) := by
  constructor
  · intro d log png s hpng hobs hs
    refine ⟨?_, "\n" ++ url_line d.current_url, String.append_assoc ..⟩
    simp [save_screenshot, hpng, hobs, hs]
  · intro d log png hpng hobs
    rcases hobs with h | h <;> simp [save_screenshot, hpng, h]

/-- A concrete live driver delivering a screenshot and a current url. -/
def sample_driver : Driver where
  get_screenshot_as_png := .ok ⟨[137, 80, 78, 71]⟩
  current_url := "https://www.zeptonow.com/"

/-- A step log already holding a textual observation. -/
def sample_step_log : StepLog where
  observations := some "Successfully navigated to Zepto."
  observations_images := none

/-- Witness for C8: on a concrete driver and a step log with prior text, the
url line is appended after a newline and the prior text is kept as a
prefix. -/
theorem save_screenshot_appends_url_witness :
    save_screenshot (some sample_driver) sample_step_log =
      .ok ⟨some ("Successfully navigated to Zepto." ++ "\n" ++
              url_line sample_driver.current_url),
           some [⟨[137, 80, 78, 71]⟩]⟩ ∧
    ∃ rest, "Successfully navigated to Zepto." ++ "\n" ++
      url_line sample_driver.current_url =
        "Successfully navigated to Zepto." ++ rest :=
  save_screenshot_appends_url.1 sample_driver sample_step_log
    ⟨[137, 80, 78, 71]⟩ "Successfully navigated to Zepto." rfl rfl (by decide)

/-- C10 counterexample: on a static page where no image matches the category
selector, the result is not the no-category-images message — the 3 second
presence wait times out first and the outcome is the scraping error
message. -/
theorem scrape_categories_no_match_counterexample :
    scrape_categories (static_category_page "Message: " []) =
      ⟨false, "Error scraping categories: Message: "⟩ ∧
    (scrape_categories (static_category_page "Message: " [])).message ≠
      "No category images found. Possibly incorrect selector." :=
  ⟨rfl, by decide⟩

/-- C10 amended: on a static page whose matched category images carry the
listed alt attributes, scrape_categories returns the categories-found message
with the stripped truthy alt texts joined by comma-space in page order when at
least one alt is truthy, and the no-alt-text message when images match but no
alt is truthy; when no image matches, the presence wait times out and the
result is the scraping error message carrying the stringified timeout — the
no-category-images message arises only when the presence wait succeeds but the
subsequent element query returns an empty list. -/
theorem scrape_categories_results :
    (∀ (tm : String) (alts : List (Option String)), alts ≠ [] →
        py_alt_names alts ≠ [] →
        scrape_categories (static_category_page tm alts) =
          ⟨true, "Categories found: " ++ String.intercalate ", " (py_alt_names alts)⟩) ∧
    (∀ (tm : String) (alts : List (Option String)), alts ≠ [] →
        py_alt_names alts = [] →
        scrape_categories (static_category_page tm alts) =
          ⟨true, "No alt text found in category images."⟩) ∧
    (∀ (tm : String),
        scrape_categories (static_category_page tm []) =
          ⟨false, "Error scraping categories: " ++ tm⟩) ∧
    (∀ (p : CategoryPage), p.wait_presence = .ok () → p.find_elements = .ok [] →
        scrape_categories p =
          ⟨true, "No category images found. Possibly incorrect selector."⟩) := by
  refine ⟨?_, ?_, ?_, ?_⟩
  · intro tm alts h1 h2
    simp [scrape_categories, scrape_categories_body, static_category_page,
      collect_alts_map_ok, h1, h2]
  · intro tm alts h1 h2
    simp [scrape_categories, scrape_categories_body, static_category_page,
      collect_alts_map_ok, h1, h2]
  · intro tm
    simp [scrape_categories, scrape_categories_body, static_category_page]
  · intro p h1 h2
    simp [scrape_categories, scrape_categories_body, h1, h2]

/-- Witness for the amended C10: a static page with two matched images, one
alt needing stripping, yields the joined stripped names in page order. -/
theorem scrape_categories_results_witness :
    scrape_categories (static_category_page "Message: " [some "Fruits", some " Dairy "]) =
      ⟨true, "Categories found: " ++
        String.intercalate ", " (py_alt_names [some "Fruits", some " Dairy "])⟩ :=
  scrape_categories_results.1 "Message: " [some "Fruits", some " Dairy "]
    (by decide) (by decide)

/-- C4: the Control Loop executes at most maxSteps steps even when the
Decision Function never signals completion — the budget is a hard ceiling,
exactly exhausted and reported as an aborted run when no terminal answer ever
arrives — and the configured ceilings are 20 for the multi-step shopping flow
and 10 for the scraping flow. -/
theorem control_loop_budget_ceiling :
    (∀ (dcd : List SpecStep → Decision) (exe : String → List String → String)
        (maxSteps : Nat),
        (run_agent dcd exe maxSteps).1.length ≤ maxSteps) ∧
    (∀ (dcd : List SpecStep → Decision) (exe : String → List String → String)
        (maxSteps : Nat),
        (∀ (h : List SpecStep) (a : String), dcd h ≠ .done a) →
        (run_agent dcd exe maxSteps).1.length = maxSteps ∧
        ∃ m, (run_agent dcd exe maxSteps).2 = .aborted m) ∧
    agent_max_steps = 20 ∧ zepto_agent_max_steps = 10 := by
  have hle : ∀ (dcd : List SpecStep → Decision) (exe : String → List String → String)
      (fuel : Nat) (hist : List SpecStep),
      (control_loop dcd exe fuel hist).1.length ≤ hist.length + fuel := by
    intro dcd exe fuel
    induction fuel with
    | zero => intro hist; simp [control_loop]
    | succ n ih =>
      intro hist
      cases hd : dcd hist with
      | done a => simp [control_loop, hd]
      | act name args =>
        have := ih (hist ++ [⟨name, args, exe name args⟩])
        simp [control_loop, hd]
        simp [List.length_append] at this
        omega
  have hex : ∀ (dcd : List SpecStep → Decision) (exe : String → List String → String),
      (∀ (h : List SpecStep) (a : String), dcd h ≠ .done a) →
      ∀ (fuel : Nat) (hist : List SpecStep),
      (control_loop dcd exe fuel hist).1.length = hist.length + fuel ∧
      ∃ m, (control_loop dcd exe fuel hist).2 = .aborted m := by
    intro dcd exe hnd fuel
    induction fuel with
    | zero => intro hist; exact ⟨by simp [control_loop], ⟨_, rfl⟩⟩
    | succ n ih =>
      intro hist
      cases hd : dcd hist with
      | done a => exact absurd hd (hnd hist a)
      | act name args =>
        have := ih (hist ++ [⟨name, args, exe name args⟩])
        constructor
        · simp [control_loop, hd, this.1, List.length_append]
          omega
        · simpa [control_loop, hd] using this.2
  refine ⟨?_, ?_, rfl, rfl⟩
  · intro dcd exe maxSteps
    simpa using hle dcd exe maxSteps []
  · intro dcd exe maxSteps hnd
    simpa using hex dcd exe hnd maxSteps []

/-- A Decision Function that always picks another primitive, never a terminal
answer. -/
def always_navigate : List SpecStep → Decision :=
  fun _ => .act "navigate_to_zepto" []

/-- An executor returning a fixed outcome message. -/
def fixed_exec : String → List String → String :=
  fun _ _ => "Successfully navigated to Zepto."

/-- Witness for C4: with a Decision Function that never terminates and a
budget of 3 steps, the run executes exactly 3 steps and aborts. -/
theorem control_loop_budget_ceiling_witness :
    (run_agent always_navigate fixed_exec 3).1.length = 3 ∧
    ∃ m, (run_agent always_navigate fixed_exec 3).2 = .aborted m :=
  control_loop_budget_ceiling.2.1 always_navigate fixed_exec 3
    (fun _ _ hc => Decision.noConfusion hc)

end AgentVision
